import Mathlib

/-!
Verification of the WAUAC adapter (Z-API ⇄ Chatwoot bridge).

This file gives a shallow embedding, in Lean, of the parts of the adapter
that the specification talks about:

* the Z-API inbound message envelope and the translator
  (`src/adapters/zapi/translator.ts`, class `ZApiTranslator`), plus the
  earlier iteration of the same translator kept in the repository;
* the Joi validation ladder of the webhook handler
  (`src/adapters/zapi/validation.ts` and `handleMessageReceived`);
* the webhook handler response behaviour (`handleMessageReceived`);
* the retry wrapper of the Chatwoot service iteration that has one
  (`retryWithBackoff`);
* the attachment delivery naming of `chatwoot.service.ts`
  (`sendMessageWithAttachments` / `getFileExtension`);
* the identity-mapping cache (`cache.service.ts`) and the queue worker
  cache update (`queue.service.ts`, `processMessage`).

JavaScript objects are embedded as Lean structures with `Option` fields for
optional properties; JavaScript string truthiness (`undefined`, `null` and
`""` are falsy) is modelled explicitly.  Key/value bags (Chatwoot
`content_attributes`, webhook JSON bodies, the Redis store) are association
lists with JavaScript assignment semantics (replace the binding if the key
exists, append otherwise).
-/

namespace Wauac

/-! ## Association lists (JavaScript object assignment semantics) -/

/-- JavaScript assignment `obj[k] = v`: replace the first binding of `k`, or append a new one. -/
def assocSet {α : Type} : List (String × α) → String → α → List (String × α)
  | [], k, v => [(k, v)]
  | (k', v') :: rest, k, v =>
      if k' = k then (k, v) :: rest else (k', v') :: assocSet rest k v

/-- JavaScript lookup `obj[k]`: the first binding of `k`, if any. -/
def assocGet {α : Type} : List (String × α) → String → Option α
  | [], _ => none
  | (k', v') :: rest, k => if k' = k then some v' else assocGet rest k

/-! ## JavaScript string truthiness -/

/-- Truthiness of an optional string: `undefined` and `""` are falsy. -/
def strTruthy : Option String → Bool
  | some s => !(s == "")
  | none => false

/-- JavaScript `a || b` on a possibly-absent string with a string default. -/
def orStr (a : Option String) (b : String) : String :=
  match a with
  | some s => if s = "" then b else s
  | none => b

/-- JavaScript `a || b` keeping the option (the right side supplies the fallback). -/
def orOptStr (a b : Option String) : Option String :=
  if strTruthy a then a else b

/-! ## Z-API inbound envelope (`src/adapters/zapi/types.ts`)

Optional properties become `Option` fields.  Fields that the translator reads
through `(x as any)` escapes (`document.url`, `location.name`, …) are included
as optional fields, since the validation schema admits them. -/

structure ZApiTextData where
  message : String

structure ZApiImageData where
  caption : Option String
  imageUrl : String
  thumbnailUrl : Option String
  mimeType : Option String

structure ZApiAudioData where
  audioUrl : String
  mimeType : Option String
  ptt : Option Bool

structure ZApiVideoData where
  caption : Option String
  videoUrl : String
  mimeType : Option String

structure ZApiDocumentData where
  documentUrl : Option String
  url : Option String
  document : Option String
  fileName : Option String
  documentName : Option String
  mimeType : Option String
  documentMimeType : Option String
  title : Option String
  caption : Option String
  documentCaption : Option String
  pageCount : Option Nat

structure ZApiLocation where
  latitude : Int
  longitude : Int
  description : Option String
  address : Option String
  name : Option String
  url : Option String

structure ZApiContactData where
  displayName : Option String
  vCard : Option String
  vcard : Option String

structure ZApiStickerData where
  stickerUrl : Option String
  url : Option String

/-- A poll option as consumed by the poll handler: either a plain string or an
object whose `name`/`text` fields are read. -/
inductive ZApiPollOption where
  | strOpt (s : String)
  | objOpt (name : Option String) (text : Option String)

structure ZApiPollData where
  name : Option String
  question : Option String
  options : Option (List ZApiPollOption)
  choices : Option (List ZApiPollOption)

structure ZApiReactionData where
  messageId : Option String
  emoji : String

structure ZApiButtonResponse where
  buttonId : Option String
  buttonText : String

structure ZApiListResponseItem where
  id : Option String
  title : String

structure ZApiListResponse where
  title : String
  response : Option ZApiListResponseItem

structure ZApiQuotedMessage where
  messageId : String
  fromMe : Option Bool
  participant : Option String
  type : Option String
  body : Option String
  caption : Option String

structure ZApiReplyMessage where
  messageId : Option String
  fromMe : Option Bool
  senderName : Option String
  message : Option String
  caption : Option String
  type : Option String

structure ZApiQuotedMsg where
  messageId : Option String
  id : Option String
  fromMe : Option Bool
  senderName : Option String
  participant : Option String
  message : Option String
  body : Option String
  caption : Option String
  type : Option String

structure ZApiContextQuoted where
  id : Option String
  fromMe : Option Bool
  senderName : Option String
  conversation : Option String
  body : Option String

structure ZApiContextInfo where
  stanzaId : Option String
  participant : Option String
  quotedMessage : Option ZApiContextQuoted

/-- The inbound message envelope (`ZApiMessage`). -/
structure ZApiMessage where
  instanceId : String
  messageId : String
  phone : String
  fromMe : Bool
  momment : Nat
  status : Option String := none
  chatName : Option String := none
  senderName : Option String := none
  type : String
  isGroup : Option Bool := none
  isReply : Option Bool := none
  referenceMessageId : Option String := none
  quotedMessage : Option ZApiQuotedMessage := none
  replyMessage : Option ZApiReplyMessage := none
  quotedMsg : Option ZApiQuotedMsg := none
  contextInfo : Option ZApiContextInfo := none
  text : Option ZApiTextData := none
  image : Option ZApiImageData := none
  audio : Option ZApiAudioData := none
  video : Option ZApiVideoData := none
  document : Option ZApiDocumentData := none
  location : Option ZApiLocation := none
  contact : Option ZApiContactData := none
  vcard : Option ZApiContactData := none
  sticker : Option ZApiStickerData := none
  poll : Option ZApiPollData := none
  reaction : Option ZApiReactionData := none
  buttonResponse : Option ZApiButtonResponse := none
  listResponse : Option ZApiListResponse := none

/-! ## Chatwoot message payload (`ChatwootMessageData` in `translator.ts`) -/

inductive CwMessageType where
  | incoming
  | outgoing
deriving DecidableEq

structure ChatwootAttachment where
  file_type : String
  data_url : String
  thumb_url : Option String := none
  file_name : Option String := none

/-- Values stored in the `content_attributes` key/value bag. -/
inductive AttrVal where
  | null
  | str (s : String)
  | bool (b : Bool)
  | num (n : Int)
  | strList (xs : List String)
  | atts (xs : List ChatwootAttachment)
  | arr (xs : List AttrVal)
  | obj (fields : List (String × AttrVal))

/-- A possibly-absent string rendered as an attribute value. -/
def optAttr : Option String → AttrVal
  | some s => .str s
  | none => .null

structure ChatwootMessageData where
  content : String
  message_type : CwMessageType
  content_type : String
  content_attributes : List (String × AttrVal)
  echo_id : Option String

/-- A possibly-absent boolean attribute value. -/
def optAttrBool : Option Bool → AttrVal
  | some b => .bool b
  | none => .null

/-- A possibly-absent numeric attribute value. -/
def optAttrNat : Option Nat → AttrVal
  | some n => .num (Int.ofNat n)
  | none => .null

/-- JavaScript `a || b` on plain strings (the empty string is falsy). -/
def orS (a b : String) : String := if a = "" then b else a

/-! ## The translator (`src/adapters/zapi/translator.ts`, class `ZApiTranslator`) -/

namespace ZApiTranslator

/-- The base Chatwoot payload built at the top of `translateZApiToChatwoot`. -/
def mkBaseMessage (m : ZApiMessage) : ChatwootMessageData :=
  { content := ""
    message_type := if m.fromMe then .outgoing else .incoming
    content_type := "text"
    content_attributes :=
      [("source", .str "z-api"),
       ("zapi_message_id", .str m.messageId),
       ("zapi_instance_id", .str m.instanceId),
       ("zapi_timestamp", .num (Int.ofNat m.momment)),
       ("zapi_phone", .str m.phone),
       ("zapi_sender_name", optAttr m.senderName),
       ("zapi_chat_name", optAttr m.chatName),
       ("zapi_is_group", .bool (m.isGroup.getD false))]
    echo_id := some m.messageId }

/-- The `is_reply` / `reply_to_message_id` tagging applied when
`referenceMessageId` is set, before reply processing. -/
def applyReferenceReplyTag (m : ZApiMessage) (base : ChatwootMessageData) : ChatwootMessageData :=
  if strTruthy m.referenceMessageId then
    { base with content_attributes :=
        (assocSet (assocSet base.content_attributes "is_reply" (.bool true))
          "reply_to_message_id" (.str (m.referenceMessageId.getD ""))) }
  else base

/-- The normalized data of the message being replied to (`replyData`). -/
structure ReplyData where
  messageId : Option String
  fromMe : Option Bool
  sender : Option String
  content : String
  type : String

/-- Reply-source extraction of `processReplyMessage`, in the priority order of the source: `referenceMessageId`, then `quotedMessage`, then
`replyMessage`, then `quotedMsg`, then `contextInfo`. -/
def extractReplyData (m : ZApiMessage) : Option ReplyData :=
  if strTruthy m.referenceMessageId then
    some { messageId := m.referenceMessageId, fromMe := some false,
           sender := some "alguém", content := "", type := "text" }
  else match m.quotedMessage with
    | some q =>
        some { messageId := some q.messageId, fromMe := q.fromMe,
               sender := q.participant,
               content := orStr q.body (orStr q.caption ""),
               type := orStr q.type "text" }
    | none => match m.replyMessage with
      | some r =>
          some { messageId := r.messageId, fromMe := r.fromMe,
                 sender := r.senderName,
                 content := orStr r.message (orStr r.caption ""),
                 type := orStr r.type "text" }
      | none => match m.quotedMsg with
        | some q =>
            some { messageId := orOptStr q.messageId q.id, fromMe := q.fromMe,
                   sender := orOptStr q.senderName q.participant,
                   content := orStr q.message (orStr q.body (orStr q.caption "")),
                   type := orStr q.type "text" }
        | none => match m.contextInfo with
          | some ci =>
              some { messageId := orOptStr ci.stanzaId (ci.quotedMessage.bind (fun q => q.id)),
                     fromMe := ci.quotedMessage.bind (fun q => q.fromMe),
                     sender := orOptStr ci.participant (ci.quotedMessage.bind (fun q => q.senderName)),
                     content := orStr (ci.quotedMessage.bind (fun q => q.conversation))
                       (orStr (ci.quotedMessage.bind (fun q => q.body)) ""),
                     type := "text" }
          | none => none

/-- The `isReply` detection disjunction at the top of `processReplyMessage`. -/
def isReplyDetected (m : ZApiMessage) : Bool :=
  m.isReply.getD false || strTruthy m.referenceMessageId || m.quotedMessage.isSome ||
    m.replyMessage.isSome || m.quotedMsg.isSome || m.contextInfo.isSome

/-- Reply processing (`processReplyMessage`): writes `in_reply_to_external_id`, `quoted_message`
and (when quoted content is available) `reply_context`; assigns the quoted
preview to `content` when `content` is empty at this point. -/
def processReplyMessage (m : ZApiMessage) (base : ChatwootMessageData) : ChatwootMessageData :=
  if !(isReplyDetected m) then base
  else match extractReplyData m with
    | none => base
    | some rd =>
      if !(strTruthy rd.messageId) then base
      else
        let mid := rd.messageId.getD ""
        let attrs := assocSet base.content_attributes "in_reply_to_external_id" (.str mid)
        let attrs := assocSet attrs "quoted_message"
          (.obj [("id", .str mid), ("type", .str rd.type), ("content", .str rd.content),
                 ("from_me", .bool (rd.fromMe.getD false)), ("sender", optAttr rd.sender)])
        if rd.content ≠ "" then
          let senderName := orStr rd.sender (if rd.fromMe.getD false then "você" else "alguém")
          let preview := if rd.content.length > 50 then rd.content.take 50 ++ "..." else rd.content
          let ctx := "↩️ Em resposta a " ++ senderName ++ ": \"" ++ preview ++ "\""
          let attrs := assocSet attrs "reply_context" (.str ctx)
          let content := if base.content = "" ∨ base.content.trim = "" then ctx else base.content
          { base with content := content, content_attributes := attrs }
        else
          { base with content_attributes := attrs }

/-- The `↩️ [Resposta]` marker that content handlers prepend when the
envelope carries a `referenceMessageId`. -/
def addReplyMarker (m : ZApiMessage) (base : ChatwootMessageData) : ChatwootMessageData :=
  if strTruthy m.referenceMessageId then
    { base with content := "↩️ [Resposta]\n" ++ base.content }
  else base

def translateTextMessage (t : ZApiTextData) (m : ZApiMessage)
    (base : ChatwootMessageData) : ChatwootMessageData :=
  addReplyMarker m { base with content := t.message }

def translateImageMessage (img : ZApiImageData) (m : ZApiMessage)
    (base : ChatwootMessageData) : ChatwootMessageData :=
  let base := { base with
    content := orStr img.caption ""
    content_type := "text"
    content_attributes :=
      assocSet (assocSet base.content_attributes "attachments"
          (.atts [{ file_type := "image", data_url := img.imageUrl,
                    thumb_url := some (orStr img.thumbnailUrl img.imageUrl) }]))
        "media_info" (.obj [("mimeType", optAttr img.mimeType), ("caption", optAttr img.caption)]) }
  addReplyMarker m base

def translateAudioMessage (a : ZApiAudioData) (m : ZApiMessage)
    (base : ChatwootMessageData) : ChatwootMessageData :=
  let base := { base with
    content := if a.ptt.getD false then "🎤 [Nota de Voz]" else "🎵 [Áudio]"
    content_type := "text"
    content_attributes :=
      assocSet (assocSet base.content_attributes "attachments"
          (.atts [{ file_type := "audio", data_url := a.audioUrl }]))
        "media_info" (.obj [("mimeType", optAttr a.mimeType), ("ptt", optAttrBool a.ptt)]) }
  addReplyMarker m base

def translateVideoMessage (v : ZApiVideoData) (m : ZApiMessage)
    (base : ChatwootMessageData) : ChatwootMessageData :=
  let base := { base with
    content := orStr v.caption "🎥 [Vídeo]"
    content_type := "text"
    content_attributes :=
      assocSet (assocSet base.content_attributes "attachments"
          (.atts [{ file_type := "video", data_url := v.videoUrl, thumb_url := some v.videoUrl }]))
        "media_info" (.obj [("mimeType", optAttr v.mimeType), ("caption", optAttr v.caption)]) }
  addReplyMarker m base

/-- Document handling (`translateDocumentMessage`): flexible URL/file-name sources, no forced
extension, `documento` placeholder when every name field is absent. -/
def translateDocumentMessage (doc : ZApiDocumentData) (m : ZApiMessage)
    (base : ChatwootMessageData) : ChatwootMessageData :=
  let documentUrl := orOptStr doc.documentUrl (orOptStr doc.url doc.document)
  if !(strTruthy documentUrl) then
    { base with
      content := "📎 [Documento sem URL disponível]"
      content_attributes :=
        assocSet base.content_attributes "document_error" (.str "URL não encontrada") }
  else
    let fileName := orStr doc.fileName (orStr doc.documentName (orStr doc.title "documento"))
    let caption := orStr doc.caption (orStr doc.documentCaption "")
    let base := { base with
      content := orS caption ("📎 " ++ fileName)
      content_type := "text"
      content_attributes :=
        assocSet (assocSet base.content_attributes "attachments"
            (.atts [{ file_type := "file", data_url := documentUrl.getD "",
                      file_name := some fileName }]))
          "document_info"
          (.obj [("original_name", .str fileName), ("title", optAttr doc.title),
                 ("mime_type", optAttr (orOptStr doc.mimeType doc.documentMimeType)),
                 ("page_count", optAttrNat doc.pageCount), ("caption", .str caption)]) }
    addReplyMarker m base

def translateLocationMessage (loc : ZApiLocation) (m : ZApiMessage)
    (base : ChatwootMessageData) : ChatwootMessageData :=
  let address := orStr loc.address (orStr loc.description "")
  let name := orStr loc.name ""
  let displayName := orS name (orS address "Localização compartilhada")
  let mapsUrl := "https://maps.google.com/?q=" ++ toString loc.latitude ++ "," ++ toString loc.longitude
  let content := "📍 " ++ displayName ++ "\n" ++
    "🌍 Latitude: " ++ toString loc.latitude ++ "\n" ++
    "🌍 Longitude: " ++ toString loc.longitude ++ "\n" ++
    "🗺️ " ++ mapsUrl
  let base := { base with
    content := content
    content_attributes :=
      assocSet base.content_attributes "location_info"
        (.obj [("latitude", .num loc.latitude), ("longitude", .num loc.longitude),
               ("address", .str address), ("name", .str name),
               ("url", .str (orStr loc.url mapsUrl)), ("google_maps_url", .str mapsUrl)]) }
  addReplyMarker m base

/-- Scanner for the `FN:` line of a vCard: chars following the first `FN:`. -/
def findFN : List Char → Option (List Char)
  | [] => none
  | c :: rest =>
      if c = 'F' ∧ rest.take 2 = ['N', ':'] then some (rest.drop 2) else findFN rest

/-- Chars before the first CR/LF, or `none` when no line break follows
(the vCard name pattern only matches up to a line break). -/
def takeToLineBreak : List Char → Option (List Char)
  | [] => none
  | c :: rest =>
      if c = '\r' ∨ c = '\n' then some []
      else (takeToLineBreak rest).map (fun cs => c :: cs)

/-- The lazy capture of the vCard name pattern used by the contact handler. -/
def extractFN (s : String) : Option String :=
  (findFN s.data).bind (fun t => (takeToLineBreak t).map (fun cs => String.mk cs))

def emptyContactData : ZApiContactData := { displayName := none, vCard := none, vcard := none }

def translateContactMessage (m : ZApiMessage) (base : ChatwootMessageData) : ChatwootMessageData :=
  let c := match m.contact with
    | some c => c
    | none => match m.vcard with
      | some c => c
      | none => emptyContactData
  let vCardData := orStr c.vCard (orStr c.vcard "")
  let name := match extractFN vCardData with
    | some n => n
    | none => orStr c.displayName "Contato"
  let content := "👤 Contato compartilhado: " ++ name ++
    (if vCardData = "" then "" else "\n\n" ++ vCardData)
  let base := { base with
    content := content
    content_attributes :=
      assocSet base.content_attributes "contact_info"
        (.obj [("display_name", .str name), ("vcard_data", .str vCardData),
               ("original_contact",
                .obj [("displayName", optAttr c.displayName), ("vCard", optAttr c.vCard),
                      ("vcard", optAttr c.vcard)])]) }
  addReplyMarker m base

def pollOptText (i : Nat) : ZApiPollOption → String
  | .strOpt s => s
  | .objOpt name text => orStr name (orStr text ("Opção " ++ toString (i + 1)))

def pollOptionAttr : ZApiPollOption → AttrVal
  | .strOpt s => .str s
  | .objOpt name text => .obj [("name", optAttr name), ("text", optAttr text)]

def emptyPollData : ZApiPollData :=
  { name := none, question := none, options := none, choices := none }

def translatePollMessage (m : ZApiMessage) (base : ChatwootMessageData) : ChatwootMessageData :=
  let p := m.poll.getD emptyPollData
  let pollName := orStr p.name (orStr p.question "Enquete")
  let options := match p.options with
    | some o => o
    | none => match p.choices with
      | some c => c
      | none => []
  let content := "📊 Enquete: " ++ pollName ++ "\n" ++
    String.join (options.enum.map (fun p => "\n" ++ toString (p.1 + 1) ++ ". " ++ pollOptText p.1 p.2))
  let base := { base with
    content := content
    content_attributes :=
      assocSet base.content_attributes "poll_info"
        (.obj [("poll_name", .str pollName),
               ("options", .arr (options.map pollOptionAttr)),
               ("original_poll",
                .obj [("name", optAttr p.name), ("question", optAttr p.question),
                      ("options", match p.options with
                        | some o => .arr (o.map pollOptionAttr)
                        | none => .null),
                      ("choices", match p.choices with
                        | some c => .arr (c.map pollOptionAttr)
                        | none => .null)])]) }
  addReplyMarker m base

def emptyStickerData : ZApiStickerData := { stickerUrl := none, url := none }

def translateStickerMessage (m : ZApiMessage) (base : ChatwootMessageData) : ChatwootMessageData :=
  let s := m.sticker.getD emptyStickerData
  let stickerUrl := orOptStr s.stickerUrl s.url
  let base := { base with content := "😄 [Sticker]" }
  let base :=
    if strTruthy stickerUrl then
      { base with content_attributes :=
          (assocSet base.content_attributes "attachments"
            (.atts [{ file_type := "image", data_url := stickerUrl.getD "" }])) }
    else base
  let base := { base with content_attributes :=
      (assocSet base.content_attributes "sticker_info"
        (.obj [("stickerUrl", optAttr s.stickerUrl), ("url", optAttr s.url)])) }
  addReplyMarker m base

def translateReactionMessage (r : ZApiReactionData) (base : ChatwootMessageData) :
    ChatwootMessageData :=
  { base with
    content := r.emoji ++ " [Reação à mensagem]"
    content_attributes :=
      assocSet base.content_attributes "reaction_info"
        (.obj [("messageId", optAttr r.messageId), ("emoji", .str r.emoji)]) }

def translateButtonResponseMessage (b : ZApiButtonResponse) (base : ChatwootMessageData) :
    ChatwootMessageData :=
  { base with
    content := "🔘 " ++ b.buttonText
    content_attributes :=
      assocSet base.content_attributes "button_response_info"
        (.obj [("buttonId", optAttr b.buttonId), ("buttonText", .str b.buttonText)]) }

def translateListResponseMessage (l : ZApiListResponse) (base : ChatwootMessageData) :
    ChatwootMessageData :=
  { base with
    content := "📋 " ++ l.title ++ ": " ++ orStr (l.response.map (fun r => r.title)) "Selecionado"
    content_attributes :=
      assocSet base.content_attributes "list_response_info"
        (.obj [("title", .str l.title),
               ("response", match l.response with
                 | some r => .obj [("id", optAttr r.id), ("title", .str r.title)]
                 | none => .null)]) }

/-- Keys of `Object.keys(zapiMessage)` minus the nine base envelope keys, restricted
to the modelled fields, for the `available_fields` forensic attribute. -/
def availableExtraKeys (m : ZApiMessage) : List String :=
  (if m.isGroup.isSome then ["isGroup"] else []) ++
  (if m.isReply.isSome then ["isReply"] else []) ++
  (if m.referenceMessageId.isSome then ["referenceMessageId"] else []) ++
  (if m.quotedMessage.isSome then ["quotedMessage"] else []) ++
  (if m.replyMessage.isSome then ["replyMessage"] else []) ++
  (if m.quotedMsg.isSome then ["quotedMsg"] else []) ++
  (if m.contextInfo.isSome then ["contextInfo"] else []) ++
  (if m.text.isSome then ["text"] else []) ++
  (if m.image.isSome then ["image"] else []) ++
  (if m.audio.isSome then ["audio"] else []) ++
  (if m.video.isSome then ["video"] else []) ++
  (if m.document.isSome then ["document"] else []) ++
  (if m.location.isSome then ["location"] else []) ++
  (if m.contact.isSome then ["contact"] else []) ++
  (if m.vcard.isSome then ["vcard"] else []) ++
  (if m.sticker.isSome then ["sticker"] else []) ++
  (if m.poll.isSome then ["poll"] else []) ++
  (if m.reaction.isSome then ["reaction"] else []) ++
  (if m.buttonResponse.isSome then ["buttonResponse"] else []) ++
  (if m.listResponse.isSome then ["listResponse"] else [])

/-- The unsupported-type fallback branch of `translateZApiToChatwoot`. -/
def unsupportedFallback (m : ZApiMessage) (base : ChatwootMessageData) : ChatwootMessageData :=
  { base with
    content := "[Tipo de mensagem não suportado: " ++ m.type ++ "]"
    content_attributes :=
      assocSet (assocSet base.content_attributes "unsupported_type" (.str m.type))
        "available_fields" (.strList (availableExtraKeys m)) }

/-- Content-variant dispatch, in the presence-check order of the source. -/
def dispatchContent (m : ZApiMessage) (base : ChatwootMessageData) : ChatwootMessageData :=
  match m.text with
  | some t => translateTextMessage t m base
  | none => match m.image with
    | some img => translateImageMessage img m base
    | none => match m.audio with
      | some a => translateAudioMessage a m base
      | none => match m.video with
        | some v => translateVideoMessage v m base
        | none => match m.document with
          | some d => translateDocumentMessage d m base
          | none => match m.location with
            | some loc => translateLocationMessage loc m base
            | none =>
              if m.contact.isSome || m.vcard.isSome then translateContactMessage m base
              else match m.sticker with
                | some _ => translateStickerMessage m base
                | none => match m.poll with
                  | some _ => translatePollMessage m base
                  | none => match m.reaction with
                    | some r => translateReactionMessage r base
                    | none => match m.buttonResponse with
                      | some b => translateButtonResponseMessage b base
                      | none => match m.listResponse with
                        | some l => translateListResponseMessage l base
                        | none => unsupportedFallback m base

/-- Top-level translation `translateZApiToChatwoot` (`toPlatform`): base payload, reference-id reply
tagging, reply processing, then content-variant dispatch.  In the source the
whole body is wrapped in `try`/`catch`; every branch returns, so here the
function is total. -/
def translateZApiToChatwoot (m : ZApiMessage) : ChatwootMessageData :=
  dispatchContent m (processReplyMessage m (applyReferenceReplyTag m (mkBaseMessage m)))

end ZApiTranslator

/-! ## The earlier translator iteration kept in the repository

The repository carries a second, earlier `ZApiTranslator` whose
`translateZApiToChatwoot` handles only text / image / audio / video /
document / location and puts attachments on a top-level field.  Its
unsupported fallback uses the English placeholder. -/

structure LegacyMessageData where
  content : String
  message_type : CwMessageType
  content_type : String
  content_attributes : List (String × AttrVal)
  echo_id : Option String
  attachments : Option (List ChatwootAttachment)

namespace LegacyZApiTranslator

def mkBaseMessage (m : ZApiMessage) : LegacyMessageData :=
  { content := ""
    message_type := if m.fromMe then .outgoing else .incoming
    content_type := "text"
    content_attributes :=
      [("source", .str "z-api"),
       ("zapi_message_id", .str m.messageId),
       ("zapi_instance_id", .str m.instanceId),
       ("zapi_timestamp", .num (Int.ofNat m.momment)),
       ("zapi_phone", .str m.phone),
       ("zapi_sender_name", optAttr m.senderName),
       ("zapi_chat_name", optAttr m.chatName),
       ("zapi_is_group", .bool (m.isGroup.getD false))]
    echo_id := some m.messageId
    attachments := none }

/-- The earlier `translateZApiToChatwoot`.  The location strings are copied
byte-for-byte from the source file, which stores them in a garbled encoding. -/
def translateZApiToChatwoot (m : ZApiMessage) : LegacyMessageData :=
  let base := mkBaseMessage m
  match m.text with
  | some t => { base with content := t.message }
  | none => match m.image with
    | some img =>
        { base with
          content := orStr img.caption "[Image]"
          attachments := some [{ file_type := "image", data_url := img.imageUrl,
                                 thumb_url := some (orStr img.thumbnailUrl img.imageUrl) }]
          content_attributes :=
            (assocSet base.content_attributes "media_info"
              (.obj [("mimeType", optAttr img.mimeType), ("caption", optAttr img.caption)])) }
    | none => match m.audio with
      | some a =>
          { base with
            content := "[Audio Message]"
            attachments := some [{ file_type := "audio", data_url := a.audioUrl }]
            content_attributes :=
              (assocSet base.content_attributes "media_info"
                (.obj [("mimeType", optAttr a.mimeType), ("ptt", optAttrBool a.ptt)])) }
      | none => match m.video with
        | some v =>
            { base with
              content := orStr v.caption "[Video]"
              attachments := some [{ file_type := "video", data_url := v.videoUrl,
                                     thumb_url := some v.videoUrl }]
              content_attributes :=
                (assocSet base.content_attributes "media_info"
                  (.obj [("mimeType", optAttr v.mimeType), ("caption", optAttr v.caption)])) }
        | none => match m.document with
          | some d =>
              { base with
                content := "[Document: " ++ orStr d.fileName (orStr d.title "Unknown") ++ "]"
                attachments := some [{ file_type := "file", data_url := d.documentUrl.getD "" }]
                content_attributes :=
                  (assocSet base.content_attributes "media_info"
                    (.obj [("fileName", optAttr d.fileName), ("title", optAttr d.title),
                           ("mimeType", optAttr d.mimeType)])) }
          | none => match m.location with
            | some loc =>
                let parts :=
                  (if strTruthy loc.description then ["ðŸ“ " ++ orStr loc.description ""] else []) ++
                  (if strTruthy loc.address then ["ðŸ“ " ++ orStr loc.address ""] else []) ++
                  ["ðŸŒ Latitude: " ++ toString loc.latitude,
                   "ðŸŒ Longitude: " ++ toString loc.longitude]
                let locationText := String.intercalate "\n" parts
                { base with
                  content := orS locationText "[Location Shared]"
                  content_attributes :=
                    (assocSet base.content_attributes "location_info"
                      (.obj [("latitude", .num loc.latitude), ("longitude", .num loc.longitude),
                             ("address", optAttr loc.address),
                             ("description", optAttr loc.description),
                             ("google_maps_url",
                              .str ("https://www.google.com/maps?q=" ++ toString loc.latitude ++
                                "," ++ toString loc.longitude))])) }
            | none =>
                { base with
                  content := "[Unsupported message type: " ++ m.type ++ "]"
                  content_attributes :=
                    (assocSet base.content_attributes "unsupported_type" (.str m.type)) }

end LegacyZApiTranslator

/-! ## Webhook validation (`src/adapters/zapi/validation.ts` and the handler ladder)

Raw webhook bodies are JSON objects.  A Joi schema is a list of field
specifications plus the unknown-key policy; `.unknown(true)` on every schema
in the source corresponds to `allowUnknown := true`. -/

inductive JVal where
  | null
  | str (s : String)
  | bool (b : Bool)
  | num (n : Int)
  | arr (xs : List JVal)
  | obj (fields : List (String × JVal))

/-- One Joi field: name, whether `.required()`, and the value check. -/
structure JoiFieldSpec where
  name : String
  required : Bool
  check : JVal → Bool

structure JoiSchema where
  fields : List JoiFieldSpec
  allowUnknown : Bool

def fieldOk (body : List (String × JVal)) (f : JoiFieldSpec) : Bool :=
  match assocGet body f.name with
  | none => !f.required
  | some v => f.check v

def schemaOk (s : JoiSchema) (body : List (String × JVal)) : Bool :=
  s.fields.all (fieldOk body) &&
    (s.allowUnknown || body.all (fun kv => s.fields.any (fun f => f.name == kv.1)))

/-- Check for `Joi.string()`: a string, and the empty string is rejected by default. -/
def joiString : JVal → Bool
  | .str s => !(s == "")
  | _ => false

/-- Check for a Joi string field that also allows the empty string and null. -/
def joiStringLoose : JVal → Bool
  | .str _ => true
  | .null => true
  | _ => false

def joiBoolean : JVal → Bool
  | .bool _ => true
  | _ => false

def joiNumber : JVal → Bool
  | .num _ => true
  | _ => false

/-- Check for a Joi number field that also allows null. -/
def joiNumberLoose : JVal → Bool
  | .num _ => true
  | .null => true
  | _ => false

/-- Check for a Joi array field with unconstrained items. -/
def joiArrayAny : JVal → Bool
  | .arr _ => true
  | _ => false

/-- Check for a Joi object field with unknown keys allowed and no field constraints. -/
def joiAnyObject : JVal → Bool
  | .obj _ => true
  | _ => false

/-- Check for a Joi uri field, modelled as a non-empty string (URI grammar is not
needed by any claim). -/
def joiUri : JVal → Bool := joiString

/-- A nested `Joi.object({...}).unknown(true)` check. -/
def joiObjOf (s : JoiSchema) : JVal → Bool
  | .obj fs => schemaOk s fs
  | _ => false

def textSub : JoiSchema :=
  { fields := [⟨"message", true, joiString⟩], allowUnknown := true }

def imageSub : JoiSchema :=
  { fields := [⟨"imageUrl", false, joiUri⟩, ⟨"caption", false, joiStringLoose⟩],
    allowUnknown := true }

def audioSub : JoiSchema :=
  { fields := [⟨"audioUrl", false, joiUri⟩, ⟨"ptt", false, joiBoolean⟩],
    allowUnknown := true }

def videoSub : JoiSchema :=
  { fields := [⟨"videoUrl", false, joiUri⟩, ⟨"caption", false, joiStringLoose⟩],
    allowUnknown := true }

def documentSub : JoiSchema :=
  { fields :=
      [⟨"documentUrl", false, joiUri⟩, ⟨"fileName", false, joiStringLoose⟩,
       ⟨"documentName", false, joiStringLoose⟩, ⟨"caption", false, joiStringLoose⟩,
       ⟨"documentCaption", false, joiStringLoose⟩, ⟨"mimeType", false, joiStringLoose⟩,
       ⟨"documentMimeType", false, joiStringLoose⟩, ⟨"title", false, joiStringLoose⟩,
       ⟨"pageCount", false, joiNumberLoose⟩, ⟨"url", false, joiUri⟩],
    allowUnknown := true }

def locationSub : JoiSchema :=
  { fields :=
      [⟨"latitude", true, joiNumber⟩, ⟨"longitude", true, joiNumber⟩,
       ⟨"address", false, joiStringLoose⟩, ⟨"name", false, joiStringLoose⟩,
       ⟨"description", false, joiStringLoose⟩, ⟨"url", false, joiStringLoose⟩],
    allowUnknown := true }

def contactSub : JoiSchema :=
  { fields :=
      [⟨"displayName", false, joiStringLoose⟩, ⟨"vCard", false, joiStringLoose⟩,
       ⟨"vcard", false, joiStringLoose⟩],
    allowUnknown := true }

def pollSub : JoiSchema :=
  { fields :=
      [⟨"name", false, joiStringLoose⟩, ⟨"question", false, joiStringLoose⟩,
       ⟨"options", false, joiArrayAny⟩, ⟨"choices", false, joiArrayAny⟩],
    allowUnknown := true }

def stickerSub : JoiSchema :=
  { fields := [⟨"stickerUrl", false, joiUri⟩, ⟨"url", false, joiUri⟩],
    allowUnknown := true }

def reactionSub : JoiSchema :=
  { fields := [⟨"messageId", false, joiString⟩, ⟨"emoji", false, joiString⟩],
    allowUnknown := true }

/-- The flexible message schema (`zapiMessageSchema` in `validation.ts`). -/
def zapiMessageSchema : JoiSchema :=
  { fields :=
      [⟨"instanceId", true, joiString⟩, ⟨"messageId", true, joiString⟩,
       ⟨"phone", true, joiString⟩, ⟨"fromMe", true, joiBoolean⟩, ⟨"type", true, joiString⟩,
       ⟨"momment", false, joiNumber⟩, ⟨"status", false, joiStringLoose⟩,
       ⟨"chatName", false, joiStringLoose⟩, ⟨"senderName", false, joiStringLoose⟩,
       ⟨"senderPhoto", false, joiStringLoose⟩, ⟨"photo", false, joiStringLoose⟩,
       ⟨"broadcast", false, joiBoolean⟩, ⟨"isGroup", false, joiBoolean⟩,
       ⟨"isNewsletter", false, joiBoolean⟩, ⟨"waitingMessage", false, joiBoolean⟩,
       ⟨"referenceMessageId", false, joiStringLoose⟩, ⟨"isReply", false, joiBoolean⟩,
       ⟨"quotedMessage", false, joiAnyObject⟩, ⟨"replyMessage", false, joiAnyObject⟩,
       ⟨"quotedMsg", false, joiAnyObject⟩, ⟨"contextInfo", false, joiAnyObject⟩,
       ⟨"text", false, joiObjOf textSub⟩, ⟨"image", false, joiObjOf imageSub⟩,
       ⟨"audio", false, joiObjOf audioSub⟩, ⟨"video", false, joiObjOf videoSub⟩,
       ⟨"document", false, joiObjOf documentSub⟩, ⟨"location", false, joiObjOf locationSub⟩,
       ⟨"contact", false, joiObjOf contactSub⟩, ⟨"vcard", false, joiObjOf contactSub⟩,
       ⟨"poll", false, joiObjOf pollSub⟩, ⟨"sticker", false, joiObjOf stickerSub⟩,
       ⟨"reaction", false, joiObjOf reactionSub⟩, ⟨"buttonResponse", false, joiAnyObject⟩,
       ⟨"listResponse", false, joiAnyObject⟩],
    allowUnknown := true }

/-- The emergency fallback schema (`zapiDebugSchema`): only the four minimal
fields, any other field accepted. -/
def zapiDebugSchema : JoiSchema :=
  { fields :=
      [⟨"instanceId", true, joiString⟩, ⟨"messageId", true, joiString⟩,
       ⟨"phone", true, joiString⟩, ⟨"fromMe", true, joiBoolean⟩],
    allowUnknown := true }

inductive ValidationOutcome where
  | accepted
  | rejected
deriving DecidableEq

/-- The validation ladder of `handleMessageReceived`: try the flexible schema;
on failure try the debug schema; surface a `ValidationError` only when both
fail (otherwise the original body is processed). -/
def validateMessageReceived (body : List (String × JVal)) : ValidationOutcome :=
  if schemaOk zapiMessageSchema body then .accepted
  else if schemaOk zapiDebugSchema body then .accepted
  else .rejected

/-! ## Webhook handler responses (`handleMessageReceived` after validation)

The handler is modelled on the validated envelope.  The downstream
`processMessageWithChatwoot` call (contact/conversation resolution, the
translator, the Chatwoot send) is abstracted as an oracle recording its
outcome and how many Identity Resolver and Translator invocations it would
perform; the handler decides whether that oracle is consulted at all. -/

structure DownstreamBehavior where
  result : Except String Unit
  resolverCalls : Nat
  translatorCalls : Nat

structure HandlerRun where
  status : Nat
  body : List (String × String)
  resolverCalls : Nat
  translatorCalls : Nat
deriving DecidableEq

namespace ZApiWebhookHandler

/-- Handler `handleMessageReceived` on a validated envelope: the bot filter answers
`200` and returns before any downstream work; otherwise downstream success
yields the `200` acceptance body and a thrown error is caught and answered
with the `500` body `{error, message, correlationId}` (the logged stack trace
is not part of the response). -/
def handleMessageReceived (cid now : String) (m : ZApiMessage)
    (ds : DownstreamBehavior) : HandlerRun :=
  if m.fromMe then
    { status := 200
      body := [("success", "true"), ("message", "Message from bot ignored"),
               ("correlationId", cid), ("timestamp", now)]
      resolverCalls := 0
      translatorCalls := 0 }
  else match ds.result with
    | .ok _ =>
        { status := 200
          body := [("status", "accepted"), ("correlationId", cid), ("processed", "true"),
                   ("messageId", m.messageId), ("timestamp", now)]
          resolverCalls := ds.resolverCalls
          translatorCalls := ds.translatorCalls }
    | .error e =>
        { status := 500
          body := [("error", "Processing failed"), ("message", e), ("correlationId", cid)]
          resolverCalls := ds.resolverCalls
          translatorCalls := ds.translatorCalls }

end ZApiWebhookHandler

/-! ## Retry policy (`retryWithBackoff` of the Chatwoot service) and
attachment delivery naming (`sendMessageWithAttachments`) -/

structure RetryRun (A : Type) where
  result : Except String A
  calls : Nat
  delays : List Nat

namespace ChatwootService

/-- The `for attempt = 1..maxRetries` loop of `retryWithBackoff`: the
operation is given the attempt number; a failure on the final attempt is
re-thrown; otherwise the loop waits `baseDelay * 2^(attempt-1)` and retries.
The run records the result, the number of operation calls and the waits. -/
def retryFrom {A : Type} (op : Nat → Except String A) (maxRetries baseDelay attempt : Nat) :
    RetryRun A :=
  if _h : attempt > maxRetries then
    { result := .error "Retry logic failed unexpectedly", calls := 0, delays := [] }
  else
    match op attempt with
    | .ok a => { result := .ok a, calls := 1, delays := [] }
    | .error e =>
      if attempt = maxRetries then { result := .error e, calls := 1, delays := [] }
      else
        let rest := retryFrom op maxRetries baseDelay (attempt + 1)
        { result := rest.result, calls := rest.calls + 1,
          delays := baseDelay * 2 ^ (attempt - 1) :: rest.delays }
termination_by maxRetries + 1 - attempt
decreasing_by omega

def retryWithBackoff {A : Type} (op : Nat → Except String A)
    (maxRetries baseDelay : Nat) : RetryRun A :=
  retryFrom op maxRetries baseDelay 1

/-- Every platform call site in the service (contact search/create,
conversation search/create, send message, get conversation, status patch)
wraps its request as `retryWithBackoff(op, 3, 1000, correlationId)`. -/
def chatwootApiCall {A : Type} (op : Nat → Except String A) : RetryRun A :=
  retryWithBackoff op 3 1000

/-- Extension guess `getFileExtension` of `chatwoot.service.ts`: derived from the
attachment kind. -/
def getFileExtension (fileType : String) : String :=
  if fileType = "image" then "jpg"
  else if fileType = "video" then "mp4"
  else if fileType = "audio" then "mp3"
  else if fileType = "file" then "pdf"
  else if fileType = "document" then "pdf"
  else "bin"

/-- The file name `sendMessageWithAttachments` synthesizes for attachment
`index` before downloading it. -/
def downloadFileName (index timestamp : Nat) (fileType : String) : String :=
  "attachment_" ++ toString index ++ "_" ++ toString timestamp ++ "." ++
    getFileExtension fileType

/-- The multipart file name under which the attachment reaches the platform:
`downloadAttachment` receives the synthesized name (always non-empty, so its
own fallback never fires) and the form-data name is the last path segment of
the temp file, which is that same synthesized name.  The `file_name` field
chosen by the translator is never consulted on this path. -/
def deliveredAttachmentName (index timestamp : Nat) (att : ChatwootAttachment) : String :=
  downloadFileName index timestamp att.file_type

end ChatwootService

/-! ## Identity mapping cache (`cache.service.ts`) and the queue worker update
(`queue.service.ts`, `processMessage` step 5) -/

structure MappingData where
  chatwootContactId : Nat
  chatwootConversationId : Nat
  zapiPhone : String
  contactName : Option String
  lastMessageAt : Nat
  createdAt : Nat
  updatedAt : Nat
deriving DecidableEq

def CacheStore : Type := List (String × MappingData)

namespace CacheService

/-- Cache key (`getKey`): the namespace tag plus the digits-only phone number. -/
def sanitizePhone (phone : String) : String :=
  String.mk (phone.data.filter (fun c => c.isDigit))

def getKey (phone : String) : String := "wauac:mapping:" ++ sanitizePhone phone

/-- Cache write (`setMapping`): stores the data under the key, forcing `zapiPhone` and
refreshing `updatedAt` to the current time. -/
def setMapping (st : CacheStore) (phone : String) (data : MappingData) (now : Nat) : CacheStore :=
  assocSet st (getKey phone) { data with zapiPhone := phone, updatedAt := now }

def getMapping (st : CacheStore) (phone : String) : Option MappingData :=
  assocGet st (getKey phone)

/-- Cache refresh (`updateLastMessageTime`): touches only `lastMessageAt` of an existing
mapping.  (No caller in the message-processing path invokes it.) -/
def updateLastMessageTime (st : CacheStore) (phone : String) (now : Nat) : CacheStore :=
  match getMapping st phone with
  | some m => setMapping st phone { m with lastMessageAt := now } now
  | none => st

end CacheService

namespace QueueService

/-- Step 5 of `processMessage`: a fresh `MappingData` is built with
`lastMessageAt`, `createdAt` and `updatedAt` all set to the current time and
written unconditionally with `setMapping` — the existing mapping is not read. -/
def processMessageCacheUpdate (st : CacheStore) (phone : String)
    (contactId conversationId : Nat) (senderName : Option String) (now : Nat) : CacheStore :=
  CacheService.setMapping st phone
    { chatwootContactId := contactId, chatwootConversationId := conversationId,
      zapiPhone := phone, contactName := senderName,
      lastMessageAt := now, createdAt := now, updatedAt := now } now

end QueueService

/-! ## Auxiliary key lists and concrete sample inputs -/

/-- All `content_attributes` keys that any content-variant handler writes. -/
def handlerAttrKeys : List String :=
  ["attachments", "media_info", "document_info", "document_error", "location_info",
   "contact_info", "poll_info", "sticker_info", "reaction_info", "button_response_info",
   "list_response_info", "unsupported_type", "available_fields"]

/-- The field names known to the flexible message schema. -/
def strictFieldNames : List String :=
  zapiMessageSchema.fields.map JoiFieldSpec.name

/-- An envelope with no content variant at all (discriminator `unknownKind`). -/
def envUnsupported : ZApiMessage :=
  { instanceId := "inst-1", messageId := "M-100", phone := "5511999999999",
    fromMe := false, momment := 1758000000, type := "unknownKind" }

/-- A reply envelope with both `referenceMessageId` and a structured
`quotedMessage` populated. -/
def envReplyBoth : ZApiMessage :=
  { instanceId := "inst-1", messageId := "M-101", phone := "5511999999999",
    fromMe := false, momment := 1758000001, type := "text",
    referenceMessageId := some "REF-9",
    quotedMessage := some { messageId := "QUOTED-3", fromMe := some false,
                            participant := some "Bob", type := some "text",
                            body := some "hello there", caption := none },
    text := some { message := "hi" } }

/-- A text reply whose quoted content is available and whose own text is
non-empty. -/
def envReplyTextQuoted : ZApiMessage :=
  { instanceId := "inst-1", messageId := "M-102", phone := "5511999999999",
    fromMe := false, momment := 1758000002, type := "text",
    referenceMessageId := some "REF-10",
    quotedMessage := some { messageId := "QUOTED-4", fromMe := some false,
                            participant := some "Bob", type := some "text",
                            body := some "hello there", caption := none },
    text := some { message := "hi" } }

/-- A document envelope carrying only `documentUrl` — no file name fields. -/
def envDocNoName : ZApiMessage :=
  { instanceId := "inst-1", messageId := "M-103", phone := "5511999999999",
    fromMe := false, momment := 1758000003, type := "document",
    document := some { documentUrl := some "https://files.example/report",
                       url := none, document := none, fileName := none,
                       documentName := none, mimeType := none, documentMimeType := none,
                       title := none, caption := none, documentCaption := none,
                       pageCount := none } }

/-- A self-sent text envelope. -/
def envFromMe : ZApiMessage :=
  { instanceId := "inst-1", messageId := "M-104", phone := "5511999999999",
    fromMe := true, momment := 1758000004, type := "text",
    text := some { message := "outbound echo" } }

/-- A text envelope that is not self-sent. -/
def envInbound : ZApiMessage :=
  { instanceId := "inst-1", messageId := "M-105", phone := "5511999999999",
    fromMe := false, momment := 1758000005, type := "text",
    text := some { message := "hello" } }

/-- A downstream oracle that succeeds after the usual resolution work. -/
def dsSucceeding : DownstreamBehavior :=
  { result := .ok (), resolverCalls := 2, translatorCalls := 1 }

/-- A downstream oracle whose processing throws a translation error. -/
def dsFailing : DownstreamBehavior :=
  { result := .error "Translation failed: boom", resolverCalls := 1, translatorCalls := 1 }

/-- A raw webhook body carrying exactly the four minimal fields. -/
def bodyMinimal : List (String × JVal) :=
  [("instanceId", .str "inst-1"), ("messageId", .str "M-200"),
   ("phone", .str "5511999999999"), ("fromMe", .bool false)]

/-- An operation that fails on the first two attempts and succeeds on the
third. -/
def opThirdTrySucceeds : Nat → Except String String :=
  fun attempt => if attempt ≤ 2 then .error "ECONNRESET" else .ok "sent"

/-- The cache store after the queue worker processed a first message from
`5511999999999` at time 1000. -/
def storeAfterFirstMessage : CacheStore :=
  QueueService.processMessageCacheUpdate [] "5511999999999" 7 42 none 1000

/-- The same store after the worker processed a second message from the same
participant at time 2000. -/
def storeAfterSecondMessage : CacheStore :=
  QueueService.processMessageCacheUpdate storeAfterFirstMessage "5511999999999" 7 42 none 2000

/-! ## Association list lemmas -/

@[simp] theorem assocGet_assocSet_self {α : Type} (l : List (String × α)) (k : String) (v : α) :
    assocGet (assocSet l k v) k = some v := by
  induction l with
  | nil => simp [assocSet, assocGet]
  | cons hd tl ih =>
      obtain ⟨k', v'⟩ := hd
      by_cases h : k' = k <;> simp [assocSet, assocGet, h, ih]

@[simp] theorem assocGet_assocSet_ne {α : Type} (l : List (String × α)) {k k' : String}
    (h : k ≠ k') (v : α) : assocGet (assocSet l k' v) k = assocGet l k := by
  induction l with
  | nil => simp [assocSet, assocGet, Ne.symm h]
  | cons hd tl ih =>
      obtain ⟨k₀, v₀⟩ := hd
      by_cases h0 : k₀ = k'
      · subst h0
        simp [assocSet, assocGet, Ne.symm h, h]
      · by_cases h1 : k₀ = k <;> simp [assocSet, assocGet, h0, h1, h, ih]

theorem assocGet_append_single_ne {α : Type} (l : List (String × α)) {n k : String}
    (h : n ≠ k) (v : α) : assocGet (l ++ [(k, v)]) n = assocGet l n := by
  induction l with
  | nil => simp [assocGet, Ne.symm h]
  | cons hd tl ih =>
      obtain ⟨k₀, v₀⟩ := hd
      by_cases h1 : k₀ = n <;> simp [assocGet, h1, ih]

/-! ## Translator preservation lemmas

The content handlers write `content`, `content_type` and their own attribute
keys; they never touch `message_type`, `echo_id` or attributes outside
`handlerAttrKeys`. -/

namespace ZApiTranslator

@[simp] theorem addReplyMarker_attrs (m : ZApiMessage) (b : ChatwootMessageData) :
    (addReplyMarker m b).content_attributes = b.content_attributes := by
  unfold addReplyMarker
  split <;> rfl

@[simp] theorem addReplyMarker_message_type (m : ZApiMessage) (b : ChatwootMessageData) :
    (addReplyMarker m b).message_type = b.message_type := by
  unfold addReplyMarker
  split <;> rfl

@[simp] theorem addReplyMarker_echo_id (m : ZApiMessage) (b : ChatwootMessageData) :
    (addReplyMarker m b).echo_id = b.echo_id := by
  unfold addReplyMarker
  split <;> rfl

theorem dispatchContent_attr_preserved (m : ZApiMessage) (b : ChatwootMessageData)
    {k : String} (hk : k ∉ handlerAttrKeys) :
    assocGet (dispatchContent m b).content_attributes k = assocGet b.content_attributes k := by
  simp only [handlerAttrKeys, List.mem_cons, List.not_mem_nil, or_false, not_or] at hk
  obtain ⟨h1, h2, h3, h4, h5, h6, h7, h8, h9, h10, h11, h12, h13⟩ := hk
  unfold dispatchContent translateTextMessage translateImageMessage translateAudioMessage
    translateVideoMessage translateDocumentMessage translateLocationMessage
    translateContactMessage translatePollMessage translateStickerMessage
    translateReactionMessage translateButtonResponseMessage translateListResponseMessage
    unsupportedFallback
  repeat' split
  all_goals
    simp [apply_ite ChatwootMessageData.content_attributes, apply_ite (fun l => assocGet l k),
      assocGet_assocSet_ne, h1, h2, h3, h4, h5, h6, h7, h8, h9, h10, h11, h12, h13]

theorem dispatchContent_message_type (m : ZApiMessage) (b : ChatwootMessageData) :
    (dispatchContent m b).message_type = b.message_type := by
  unfold dispatchContent translateTextMessage translateImageMessage translateAudioMessage
    translateVideoMessage translateDocumentMessage translateLocationMessage
    translateContactMessage translatePollMessage translateStickerMessage
    translateReactionMessage translateButtonResponseMessage translateListResponseMessage
    unsupportedFallback
  repeat' split
  all_goals simp [apply_ite ChatwootMessageData.message_type]

theorem dispatchContent_echo_id (m : ZApiMessage) (b : ChatwootMessageData) :
    (dispatchContent m b).echo_id = b.echo_id := by
  unfold dispatchContent translateTextMessage translateImageMessage translateAudioMessage
    translateVideoMessage translateDocumentMessage translateLocationMessage
    translateContactMessage translatePollMessage translateStickerMessage
    translateReactionMessage translateButtonResponseMessage translateListResponseMessage
    unsupportedFallback
  repeat' split
  all_goals simp [apply_ite ChatwootMessageData.echo_id]

theorem processReplyMessage_attr_preserved (m : ZApiMessage) (b : ChatwootMessageData)
    {k : String} (h1 : k ≠ "in_reply_to_external_id") (h2 : k ≠ "quoted_message")
    (h3 : k ≠ "reply_context") :
    assocGet (processReplyMessage m b).content_attributes k = assocGet b.content_attributes k := by
  unfold processReplyMessage
  repeat' split
  all_goals simp [assocGet_assocSet_ne, h1, h2, h3]

theorem processReplyMessage_message_type (m : ZApiMessage) (b : ChatwootMessageData) :
    (processReplyMessage m b).message_type = b.message_type := by
  unfold processReplyMessage
  repeat' split
  all_goals simp

theorem processReplyMessage_echo_id (m : ZApiMessage) (b : ChatwootMessageData) :
    (processReplyMessage m b).echo_id = b.echo_id := by
  unfold processReplyMessage
  repeat' split
  all_goals simp

theorem applyReferenceReplyTag_attr_preserved (m : ZApiMessage) (b : ChatwootMessageData)
    {k : String} (h1 : k ≠ "is_reply") (h2 : k ≠ "reply_to_message_id") :
    assocGet (applyReferenceReplyTag m b).content_attributes k = assocGet b.content_attributes k := by
  unfold applyReferenceReplyTag
  split
  all_goals simp [assocGet_assocSet_ne, h1, h2]

theorem applyReferenceReplyTag_message_type (m : ZApiMessage) (b : ChatwootMessageData) :
    (applyReferenceReplyTag m b).message_type = b.message_type := by
  unfold applyReferenceReplyTag
  split <;> rfl

theorem applyReferenceReplyTag_echo_id (m : ZApiMessage) (b : ChatwootMessageData) :
    (applyReferenceReplyTag m b).echo_id = b.echo_id := by
  unfold applyReferenceReplyTag
  split <;> rfl

theorem processReplyMessage_sets_reference_id (m : ZApiMessage) (b : ChatwootMessageData)
    {r : String} (h1 : m.referenceMessageId = some r) (h2 : r ≠ "") :
    assocGet (processReplyMessage m b).content_attributes "in_reply_to_external_id" =
      some (.str r) := by
  have ht : strTruthy m.referenceMessageId = true := by simp [strTruthy, h1, h2]
  unfold processReplyMessage isReplyDetected extractReplyData
  simp [ht, h1, strTruthy, h2, assocGet_assocSet_ne]

end ZApiTranslator

/-! ## Claim theorems -/

/-- C10: for every inbound envelope, whatever content variant is populated,
the translated message keeps the base fields set before dispatch: `echo_id`
is the `messageId` of the envelope (the dedupe token), the `source` attribute is
`z-api`, and `message_type` is `outgoing` exactly when `fromMe` is true. -/
theorem translator_base_fields_invariant (m : ZApiMessage) :
    (ZApiTranslator.translateZApiToChatwoot m).echo_id = some m.messageId ∧
    assocGet (ZApiTranslator.translateZApiToChatwoot m).content_attributes "source" =
      some (.str "z-api") ∧
    (ZApiTranslator.translateZApiToChatwoot m).message_type =
      (if m.fromMe then .outgoing else .incoming) := by
  unfold ZApiTranslator.translateZApiToChatwoot
  refine ⟨?_, ?_, ?_⟩
  · rw [ZApiTranslator.dispatchContent_echo_id, ZApiTranslator.processReplyMessage_echo_id,
      ZApiTranslator.applyReferenceReplyTag_echo_id]
    rfl
  · rw [ZApiTranslator.dispatchContent_attr_preserved _ _ (by decide),
      ZApiTranslator.processReplyMessage_attr_preserved _ _ (by decide) (by decide) (by decide),
      ZApiTranslator.applyReferenceReplyTag_attr_preserved _ _ (by decide) (by decide)]
    rfl
  · rw [ZApiTranslator.dispatchContent_message_type, ZApiTranslator.processReplyMessage_message_type,
      ZApiTranslator.applyReferenceReplyTag_message_type]
    rfl

/-- C2: when both the direct `referenceMessageId` field and a structured
`quotedMessage` object are populated, reply detection takes the
reference-id path: the `in_reply_to_external_id` metadata equals the
`referenceMessageId` value (not the message id of the quoted object). -/
theorem reply_reference_id_priority (m : ZApiMessage) (r : String)
    (h1 : m.referenceMessageId = some r) (h2 : r ≠ "")
    (_h3 : m.quotedMessage.isSome = true) :
    assocGet (ZApiTranslator.translateZApiToChatwoot m).content_attributes
      "in_reply_to_external_id" = some (.str r) := by
  unfold ZApiTranslator.translateZApiToChatwoot
  rw [ZApiTranslator.dispatchContent_attr_preserved _ _ (by decide)]
  exact ZApiTranslator.processReplyMessage_sets_reference_id _ _ h1 h2

/-- Witness for C2 on a concrete envelope carrying `referenceMessageId`
`REF-9` together with a quoted message whose own id is `QUOTED-3`. -/
theorem reply_reference_id_priority_witness :
    envReplyBoth.referenceMessageId = some "REF-9" ∧ "REF-9" ≠ "" ∧
    envReplyBoth.quotedMessage.isSome = true ∧
    assocGet (ZApiTranslator.translateZApiToChatwoot envReplyBoth).content_attributes
      "in_reply_to_external_id" = some (.str "REF-9") :=
  ⟨rfl, by decide, rfl,
    reply_reference_id_priority envReplyBoth "REF-9" rfl (by decide) rfl⟩

/-- C1 counterexample: on an envelope with no recognized content variant the
translator used by the webhook pipeline returns the Portuguese placeholder
`[Tipo de mensagem não suportado: unknownKind]`, not the claimed
`[Unsupported message type: unknownKind]`. -/
theorem unsupported_type_placeholder_counterexample :
    (ZApiTranslator.translateZApiToChatwoot envUnsupported).content =
      "[Tipo de mensagem não suportado: unknownKind]" ∧
    "[Tipo de mensagem não suportado: unknownKind]" ≠
      "[Unsupported message type: unknownKind]" :=
  ⟨rfl, by decide⟩

/-- C1 amended: for every envelope with no recognized content variant,
translation still returns normally (both translators are total functions and
take the fallback branch); the translator wired into the pipeline produces content
`[Tipo de mensagem não suportado: <type>]` while the earlier translator
iteration produces `[Unsupported message type: <type>]`. -/
theorem unsupported_type_placeholder_amended (m : ZApiMessage)
    (ht : m.text = none) (hi : m.image = none) (ha : m.audio = none) (hv : m.video = none)
    (hd : m.document = none) (hl : m.location = none) (hc : m.contact = none)
    (hvc : m.vcard = none) (hs : m.sticker = none) (hp : m.poll = none)
    (hr : m.reaction = none) (hb : m.buttonResponse = none) (hlr : m.listResponse = none) :
    (ZApiTranslator.translateZApiToChatwoot m).content =
      "[Tipo de mensagem não suportado: " ++ m.type ++ "]" ∧
    (LegacyZApiTranslator.translateZApiToChatwoot m).content =
      "[Unsupported message type: " ++ m.type ++ "]" := by
  constructor
  · unfold ZApiTranslator.translateZApiToChatwoot ZApiTranslator.dispatchContent
      ZApiTranslator.unsupportedFallback
    simp [ht, hi, ha, hv, hd, hl, hc, hvc, hs, hp, hr, hb, hlr]
  · unfold LegacyZApiTranslator.translateZApiToChatwoot
    simp [ht, hi, ha, hv, hd, hl]

/-- Witness for the amended C1 on a concrete unknown-type envelope. -/
theorem unsupported_type_placeholder_amended_witness :
    (ZApiTranslator.translateZApiToChatwoot envUnsupported).content =
      "[Tipo de mensagem não suportado: " ++ envUnsupported.type ++ "]" ∧
    (LegacyZApiTranslator.translateZApiToChatwoot envUnsupported).content =
      "[Unsupported message type: " ++ envUnsupported.type ++ "]" :=
  unsupported_type_placeholder_amended envUnsupported
    rfl rfl rfl rfl rfl rfl rfl rfl rfl rfl rfl rfl rfl

/-- C7 counterexample: a text reply whose quoted content is available and
whose handler content `hi` is non-empty still comes back with a reply marker
prepended — the returned content is `↩️ [Resposta]\nhi`, not `hi`. -/
theorem reply_marker_counterexample :
    envReplyTextQuoted.text = some { message := "hi" } ∧
    (ZApiTranslator.translateZApiToChatwoot envReplyTextQuoted).content =
      "↩️ [Resposta]\nhi" ∧
    "↩️ [Resposta]\nhi" ≠ "hi" :=
  ⟨rfl, rfl, by decide⟩

/-- C7 amended: the quoted-content preview is assigned to `content` only at
reply-processing time when `content` is empty (the content handler then
overwrites it); the handler itself prepends the fixed `↩️ [Resposta]` marker
exactly when the `referenceMessageId` of the envelope is non-empty, regardless of
whether its content is empty — so for a text envelope the returned content is
the text with the marker iff `referenceMessageId` is set. -/
theorem reply_marker_amended (m : ZApiMessage) (t : ZApiTextData) (h : m.text = some t) :
    (ZApiTranslator.translateZApiToChatwoot m).content =
      (if strTruthy m.referenceMessageId then "↩️ [Resposta]\n" ++ t.message else t.message) := by
  unfold ZApiTranslator.translateZApiToChatwoot ZApiTranslator.dispatchContent
  simp [h, ZApiTranslator.translateTextMessage, ZApiTranslator.addReplyMarker,
    apply_ite ChatwootMessageData.content]

/-- Witness for the amended C7 on a concrete reply text envelope. -/
theorem reply_marker_amended_witness :
    (ZApiTranslator.translateZApiToChatwoot envReplyTextQuoted).content =
      "↩️ [Resposta]\nhi" := by
  simpa using reply_marker_amended envReplyTextQuoted { message := "hi" } rfl

/-- C4: a self-sent envelope (`fromMe = true`) is answered with HTTP 200 and
no further processing happens — the downstream step holding the Identity
Resolver and Translator work is never consulted, so both invocation counts
are zero whatever the downstream oracle would have done. -/
theorem fromme_filter_no_processing (cid now : String) (m : ZApiMessage)
    (ds : DownstreamBehavior) (h : m.fromMe = true) :
    (ZApiWebhookHandler.handleMessageReceived cid now m ds).status = 200 ∧
    (ZApiWebhookHandler.handleMessageReceived cid now m ds).resolverCalls = 0 ∧
    (ZApiWebhookHandler.handleMessageReceived cid now m ds).translatorCalls = 0 := by
  simp [ZApiWebhookHandler.handleMessageReceived, h]

/-- Witness for C4 on a concrete self-sent envelope with a downstream oracle
that would have performed resolver and translator work. -/
theorem fromme_filter_no_processing_witness :
    envFromMe.fromMe = true ∧
    ((ZApiWebhookHandler.handleMessageReceived "cid-1" "2026-10-11T00:00:00.000Z"
        envFromMe dsSucceeding).status = 200 ∧
     (ZApiWebhookHandler.handleMessageReceived "cid-1" "2026-10-11T00:00:00.000Z"
        envFromMe dsSucceeding).resolverCalls = 0 ∧
     (ZApiWebhookHandler.handleMessageReceived "cid-1" "2026-10-11T00:00:00.000Z"
        envFromMe dsSucceeding).translatorCalls = 0) :=
  ⟨rfl, fromme_filter_no_processing "cid-1" "2026-10-11T00:00:00.000Z" envFromMe dsSucceeding rfl⟩

/-- C9 counterexample: on a downstream failure the 500 body is not limited to
a generic message plus the correlation id — it carries the underlying error
message verbatim (`Translation failed: boom`), which is neither the generic
`Processing failed` label nor the correlation id. -/
theorem error_body_counterexample :
    (ZApiWebhookHandler.handleMessageReceived "abc-123" "2026-10-11T00:00:00.000Z"
        envInbound dsFailing).status = 500 ∧
    ("message", "Translation failed: boom") ∈
      (ZApiWebhookHandler.handleMessageReceived "abc-123" "2026-10-11T00:00:00.000Z"
        envInbound dsFailing).body ∧
    "Translation failed: boom" ≠ "Processing failed" ∧
    "Translation failed: boom" ≠ "abc-123" :=
  ⟨rfl, by decide, by decide, by decide⟩

/-- C9 amended: on a downstream failure the caller receives a definitive 500
whose body is exactly the generic `Processing failed` label, the underlying
message of the underlying error and the correlation id — never a stack trace; and a 200 is
sent only when the event was self-sent or downstream processing already
succeeded, so an accepted event never later surfaces an error response. -/
theorem error_body_amended :
    (∀ (cid now : String) (m : ZApiMessage) (ds : DownstreamBehavior) (e : String),
        m.fromMe = false → ds.result = .error e →
        (ZApiWebhookHandler.handleMessageReceived cid now m ds).status = 500 ∧
        (ZApiWebhookHandler.handleMessageReceived cid now m ds).body =
          [("error", "Processing failed"), ("message", e), ("correlationId", cid)] ∧
        ∀ kv ∈ (ZApiWebhookHandler.handleMessageReceived cid now m ds).body,
          kv.1 ≠ "stack") ∧
    (∀ (cid now : String) (m : ZApiMessage) (ds : DownstreamBehavior),
        (ZApiWebhookHandler.handleMessageReceived cid now m ds).status = 200 →
        m.fromMe = true ∨ ds.result = .ok ()) := by
  constructor
  · intro cid now m ds e hf he
    refine ⟨?_, ?_, ?_⟩ <;> simp [ZApiWebhookHandler.handleMessageReceived, hf, he]
  · intro cid now m ds h
    by_cases hf : m.fromMe = true
    · exact Or.inl hf
    · right
      have hf' : m.fromMe = false := by simpa using hf
      cases hres : ds.result with
      | ok u => cases u; rfl
      | error e => simp [ZApiWebhookHandler.handleMessageReceived, hf', hres] at h

/-- Witness for the amended C9: the failing run yields the three-field 500
body, and a 200 on a non-self-sent envelope certifies downstream success. -/
theorem error_body_amended_witness :
    ((ZApiWebhookHandler.handleMessageReceived "abc-123" "2026-10-11T00:00:00.000Z"
        envInbound dsFailing).status = 500 ∧
     (ZApiWebhookHandler.handleMessageReceived "abc-123" "2026-10-11T00:00:00.000Z"
        envInbound dsFailing).body =
       [("error", "Processing failed"), ("message", "Translation failed: boom"),
        ("correlationId", "abc-123")] ∧
     ∀ kv ∈ (ZApiWebhookHandler.handleMessageReceived "abc-123" "2026-10-11T00:00:00.000Z"
        envInbound dsFailing).body, kv.1 ≠ "stack") ∧
    (envFromMe.fromMe = true ∨ dsSucceeding.result = .ok ()) :=
  ⟨error_body_amended.1 "abc-123" "2026-10-11T00:00:00.000Z" envInbound dsFailing
      "Translation failed: boom" rfl rfl,
   error_body_amended.2 "abc-123" "2026-10-11T00:00:00.000Z" envFromMe dsSucceeding rfl⟩

/-- C5: every wrapped platform call attempts the operation at most 3 times;
when the first two attempts fail the waits are exactly 1000 ms and 2000 ms,
a third-attempt failure propagates that error after exactly 3 calls with no
further wait, and a third-attempt success returns the result after exactly 3
calls. -/
theorem retry_backoff_policy {A : Type} (op : Nat → Except String A) :
    (ChatwootService.chatwootApiCall op).calls ≤ 3 ∧
    (∀ e1 e2, op 1 = .error e1 → op 2 = .error e2 →
      (∀ e3, op 3 = .error e3 →
        (ChatwootService.chatwootApiCall op).result = .error e3 ∧
        (ChatwootService.chatwootApiCall op).calls = 3 ∧
        (ChatwootService.chatwootApiCall op).delays = [1000, 2000]) ∧
      (∀ a, op 3 = .ok a →
        (ChatwootService.chatwootApiCall op).result = .ok a ∧
        (ChatwootService.chatwootApiCall op).calls = 3 ∧
        (ChatwootService.chatwootApiCall op).delays = [1000, 2000])) := by
  constructor
  · cases h1 : op 1 with
    | ok a =>
        simp [ChatwootService.chatwootApiCall, ChatwootService.retryWithBackoff,
          ChatwootService.retryFrom, h1]
    | error e1 =>
        cases h2 : op 2 with
        | ok a =>
            simp [ChatwootService.chatwootApiCall, ChatwootService.retryWithBackoff,
              ChatwootService.retryFrom, h1, h2]
        | error e2 =>
            cases h3 : op 3 with
            | ok a =>
                simp [ChatwootService.chatwootApiCall, ChatwootService.retryWithBackoff,
                  ChatwootService.retryFrom, h1, h2, h3]
            | error e3 =>
                simp [ChatwootService.chatwootApiCall, ChatwootService.retryWithBackoff,
                  ChatwootService.retryFrom, h1, h2, h3]
  · intro e1 e2 h1 h2
    constructor
    · intro e3 h3
      refine ⟨?_, ?_, ?_⟩ <;>
        simp [ChatwootService.chatwootApiCall, ChatwootService.retryWithBackoff,
          ChatwootService.retryFrom, h1, h2, h3]
    · intro a h3
      refine ⟨?_, ?_, ?_⟩ <;>
        simp [ChatwootService.chatwootApiCall, ChatwootService.retryWithBackoff,
          ChatwootService.retryFrom, h1, h2, h3]

/-- Witness for C5 on an operation failing twice and succeeding on the third
attempt: exactly 3 calls, waits 1000 ms and 2000 ms, successful result. -/
theorem retry_backoff_policy_witness :
    (ChatwootService.chatwootApiCall opThirdTrySucceeds).calls ≤ 3 ∧
    (ChatwootService.chatwootApiCall opThirdTrySucceeds).result = .ok "sent" ∧
    (ChatwootService.chatwootApiCall opThirdTrySucceeds).calls = 3 ∧
    (ChatwootService.chatwootApiCall opThirdTrySucceeds).delays = [1000, 2000] :=
  ⟨(retry_backoff_policy opThirdTrySucceeds).1,
   ((retry_backoff_policy opThirdTrySucceeds).2 "ECONNRESET" "ECONNRESET" rfl rfl).2 "sent" rfl⟩

/-! ## Validation lemmas and the C3 theorem -/

theorem fieldOk_append_ne (body : List (String × JVal)) (f : JoiFieldSpec) {k : String}
    (h : f.name ≠ k) (v : JVal) : fieldOk (body ++ [(k, v)]) f = fieldOk body f := by
  unfold fieldOk
  rw [assocGet_append_single_ne _ h]

theorem fieldsAll_append_ne (body : List (String × JVal)) (fs : List JoiFieldSpec) {k : String}
    (h : ∀ f ∈ fs, f.name ≠ k) (v : JVal) :
    fs.all (fieldOk (body ++ [(k, v)])) = fs.all (fieldOk body) := by
  induction fs with
  | nil => rfl
  | cons f rest ih =>
      simp only [List.all_cons]
      rw [fieldOk_append_ne body f (h f (by simp)) v,
        ih (fun g hg => h g (by simp [hg]))]

theorem schemaOk_append_unknown (s : JoiSchema) (body : List (String × JVal)) {k : String}
    (hu : s.allowUnknown = true) (h : ∀ f ∈ s.fields, f.name ≠ k) (v : JVal) :
    schemaOk s (body ++ [(k, v)]) = schemaOk s body := by
  unfold schemaOk
  rw [hu, fieldsAll_append_ne body s.fields h v]
  simp

/-- A body passing the flexible schema also passes the debug schema: the four
debug fields are the first four (identically-checked) fields of the flexible
schema. -/
theorem strict_implies_debug (body : List (String × JVal))
    (h : schemaOk zapiMessageSchema body = true) :
    schemaOk zapiDebugSchema body = true := by
  unfold schemaOk zapiMessageSchema at h
  unfold schemaOk zapiDebugSchema
  simp only [List.all_cons, List.all_nil, Bool.and_eq_true, Bool.and_true, Bool.true_or,
    Bool.or_true] at h ⊢
  tauto

/-- C3: validation never rejects on account of an unknown or extra field —
appending any binding whose key the schemas do not know leaves the outcome
unchanged — and the handler ladder surfaces a validation error exactly when
the maximally permissive fallback schema (the four minimal fields only) also
fails. -/
theorem validation_unknown_field_tolerance :
    (∀ (body : List (String × JVal)) (k : String) (v : JVal),
        k ∉ strictFieldNames →
        validateMessageReceived (body ++ [(k, v)]) = validateMessageReceived body) ∧
    (∀ body : List (String × JVal),
        (validateMessageReceived body = .rejected ↔
          schemaOk zapiDebugSchema body = false)) := by
  constructor
  · intro body k v hk
    unfold strictFieldNames at hk
    have hne : ∀ f ∈ zapiMessageSchema.fields, f.name ≠ k := by
      intro f hf heq
      exact hk (heq ▸ List.mem_map_of_mem JoiFieldSpec.name hf)
    have hneD : ∀ f ∈ zapiDebugSchema.fields, f.name ≠ k := by
      intro f hf
      have hf' : f ∈ zapiMessageSchema.fields := by
        simp only [zapiDebugSchema, List.mem_cons, List.not_mem_nil, or_false] at hf
        rcases hf with h | h | h | h <;> subst h <;> simp [zapiMessageSchema]
      exact hne f hf'
    unfold validateMessageReceived
    rw [schemaOk_append_unknown zapiMessageSchema body rfl hne v,
      schemaOk_append_unknown zapiDebugSchema body rfl hneD v]
  · intro body
    constructor
    · intro h
      by_cases hd : schemaOk zapiDebugSchema body = true
      · exfalso
        unfold validateMessageReceived at h
        by_cases hs : schemaOk zapiMessageSchema body = true <;> simp [hs, hd] at h
      · simpa using hd
    · intro hd
      have hs : schemaOk zapiMessageSchema body = false := by
        by_cases hs' : schemaOk zapiMessageSchema body = true
        · have hcontra := strict_implies_debug body hs'
          rw [hcontra] at hd
          simp at hd
        · simpa using hs'
      unfold validateMessageReceived
      simp [hs, hd]

/-- Witness for C3: an unknown `mysteryField` binding does not change the
outcome on a minimal four-field body, and on that body the rejection
condition coincides with the fallback schema failing. -/
theorem validation_unknown_field_tolerance_witness :
    validateMessageReceived (bodyMinimal ++ [("mysteryField", .str "x")]) =
      validateMessageReceived bodyMinimal ∧
    (validateMessageReceived bodyMinimal = .rejected ↔
      schemaOk zapiDebugSchema bodyMinimal = false) :=
  ⟨validation_unknown_field_tolerance.1 bodyMinimal "mysteryField" (.str "x") (by decide),
   validation_unknown_field_tolerance.2 bodyMinimal⟩

/-- C6 evaluation at the failing input (a document envelope carrying only a
`documentUrl`): the attachment built by the translator keeps the extensionless
placeholder name `documento`, but the name under which
`sendMessageWithAttachments` delivers the file to the platform is the
synthesized `attachment_0_<timestamp>.pdf` — a guessed `.pdf` extension,
contradicting the claim for the delivered name. -/
theorem document_delivery_name_at_failing_input :
    assocGet (ZApiTranslator.translateZApiToChatwoot envDocNoName).content_attributes
      "attachments" =
      some (.atts [{ file_type := "file", data_url := "https://files.example/report",
                     file_name := some "documento" }]) ∧
    ChatwootService.deliveredAttachmentName 0 1758000000000
        { file_type := "file", data_url := "https://files.example/report",
          file_name := some "documento" } = "attachment_0_1758000000000.pdf" ∧
    "attachment_0_1758000000000.pdf" ≠ "documento" :=
  ⟨rfl, rfl, by decide⟩

/-- C8 evaluation at the failing input (two messages from the same
participant at times 1000 and 2000): the unconditional cache
rewrite resets `createdAt` to the second processing time, while
`lastMessageAt` advances; the unused `updateLastMessageTime` helper would
have preserved `createdAt`. -/
theorem mapping_created_at_overwritten_at_failing_input :
    (CacheService.getMapping storeAfterFirstMessage "5511999999999").map
      MappingData.createdAt = some 1000 ∧
    (CacheService.getMapping storeAfterSecondMessage "5511999999999").map
      MappingData.createdAt = some 2000 ∧
    (CacheService.getMapping storeAfterSecondMessage "5511999999999").map
      MappingData.lastMessageAt = some 2000 ∧
    (CacheService.getMapping
        (CacheService.updateLastMessageTime storeAfterFirstMessage "5511999999999" 2000)
        "5511999999999").map MappingData.createdAt = some 1000 ∧
    (2000 : Nat) ≠ 1000 :=
  ⟨rfl, rfl, rfl, rfl, by decide⟩

end Wauac
